import Mathlib

/-!
Shallow embedding of `src/diffdock_webhook/diffdock_docking_service.py`
(the DiffDock webhook service of biobricks-ai/human-protein-pdb).

Pure string manipulation, the score classification, the artifact-glob
logic, the error-payload construction of `process_docking_request_uniprot`,
the `unzip_pdb_gz` helper and the FastAPI handlers `start_docking_uniprot`
and `get_job_status` are translated directly from the source.  External
effects are made explicit:
  * the DiffDock subprocess outcome is an input (`ProcOutcome`),
  * the filesystem is explicit state (association list path -> content),
  * HTTP callback delivery outcomes are inputs (`Net`),
  * rdkit SMILES validation and gzip decompression are function parameters,
  * Celery's result backend is an explicit map; an id absent from the
    backend reports status "PENDING" (Celery's documented default for
    `AsyncResult.status`).
Python floats are modelled as `Rat`; the comparisons against the literals
`0.0` and `-1.5` used by the code are exact in both representations.
String operations are implemented over `List Char` by structural
recursion so that all definitions evaluate inside the kernel.
-/

set_option maxRecDepth 16000

deriving instance DecidableEq for Except

namespace DiffDock

/-- Helper `dropPrefixL pat s` returns the remainder of `s` after the prefix
`pat`, or `none` when `pat` is not a prefix of `s`. -/
def dropPrefixL : List Char → List Char → Option (List Char)
  | [], s => some s
  | _ :: _, [] => none
  | p :: ps, c :: cs => if c = p then dropPrefixL ps cs else none

/-- Substring containment on character lists; models Python's
`pat in s`. -/
def containsSub (pat : List Char) : List Char → Bool
  | [] => (dropPrefixL pat []).isSome
  | c :: cs => (dropPrefixL pat (c :: cs)).isSome || containsSub pat cs

/-- Split a character list on a single separator character, keeping empty
pieces; models Python's `str.split(sep)` for a one-character `sep`. -/
def splitChar (sep : Char) : List Char → List (List Char)
  | [] => [[]]
  | c :: cs =>
      match splitChar sep cs, decide (c = sep) with
      | r, true => [] :: r
      | [], false => [[c]]
      | h :: t, false => (c :: h) :: t

/-- Python's `pat in s` on strings. -/
def strContains (s pat : String) : Bool :=
  containsSub pat.data s.data

/-- Python's `s.startswith(pat)`. -/
def strStartsWith (s pat : String) : Bool :=
  (dropPrefixL pat.data s.data).isSome

/-- Python's `s.endswith(pat)`. -/
def strEndsWith (s pat : String) : Bool :=
  (dropPrefixL pat.data.reverse s.data.reverse).isSome

/-- Python's `s[n:]` (drop the first `n` characters). -/
def strDrop (s : String) (n : Nat) : String :=
  ⟨s.data.drop n⟩

/-- Python's `s[:-n]` on a string of length at least `n` (drop the last `n`
characters). -/
def strDropRight (s : String) (n : Nat) : String :=
  ⟨s.data.take (s.data.length - n)⟩

/-- Split a string on a one-character separator. -/
def strSplitChar (s : String) (sep : Char) : List String :=
  (splitChar sep s.data).map (fun l => ⟨l⟩)

/-- ASCII decimal digit test (the digits accepted by Python's
`float()` grammar). -/
def isDigitChar (c : Char) : Bool :=
  48 ≤ c.toNat && c.toNat ≤ 57

/-- Value of a list of decimal digits. -/
def digitsVal (cs : List Char) : Nat :=
  cs.foldl (fun a c => 10 * a + (c.toNat - 48)) 0

/-- A nonempty all-digit list parsed to its value, `none` otherwise. -/
def decDigits (cs : List Char) : Option Nat :=
  if cs ≠ [] ∧ cs.all isDigitChar then some (digitsVal cs) else none

end DiffDock

namespace DiffDock

/-- Mantissa of Python's `float()`: `"12"`, `"12.5"`, `"12."`, `".5"` —
digits with at most one point and at least one digit overall, returned as
an (unsigned numerator, power-of-ten denominator) pair. -/
def parseMantissa (cs : List Char) : Option (Nat × Nat) :=
  match splitChar '.' cs with
  | [i] => (decDigits i).map (fun n => (n, 1))
  | [i, f] =>
      if (i ≠ [] ∨ f ≠ []) ∧ i.all isDigitChar ∧ f.all isDigitChar then
        some (digitsVal i * 10 ^ f.length + digitsVal f, 10 ^ f.length)
      else none
  | _ => none

/-- Exponent part of Python's `float()` (after the `e`): optional sign,
then digits. -/
def parseExpPart (cs : List Char) : Option Int :=
  match cs with
  | '-' :: rest => (decDigits rest).map (fun n => -(n : Int))
  | '+' :: rest => (decDigits rest).map (fun n => (n : Int))
  | _ => (decDigits cs).map (fun n => (n : Int))

/-- Model of Python's `float(score_str)` for finite decimal literals
(optional surrounding spaces, optional sign, decimal mantissa, optional
`e`/`E` exponent); the `inf`/`nan` spellings, which cannot arise from
DiffDock score strings, are not modelled.  `none` models the `ValueError`
raise. -/
def pyFloat (s : String) : Option ℚ :=
  let t := ((s.data.dropWhile (· = ' ')).reverse.dropWhile (· = ' ')).reverse
  let t := t.map (fun c => if c = 'E' then 'e' else c)
  let sg : Int := if t.head? = some '-' then -1 else 1
  let u := if t.head? = some '-' ∨ t.head? = some '+' then t.drop 1 else t
  match splitChar 'e' u with
  | [m] => (parseMantissa m).map (fun nd => Rat.divInt (sg * nd.1) nd.2)
  | [m, ex] =>
      match parseMantissa m, parseExpPart ex with
      | some nd, some (.ofNat k) => some (Rat.divInt (sg * nd.1 * 10 ^ k) nd.2)
      | some nd, some (.negSucc k) => some (Rat.divInt (sg * nd.1) (nd.2 * 10 ^ (k + 1)))
      | _, _ => none
  | _ => none

/-- The confidence classification of `perform_docking_uniprot`
(lines 183-189 of the source):
`if docking_score > 0.0: "high confidence"
 elif docking_score > -1.5: "moderate confidence"
 else: "low confidence"`.
(`Rat.divInt (-3) 2` is the literal `-1.5`, kept in `divInt` form so the
definition evaluates by kernel reduction.) -/
def classify (docking_score : ℚ) : String :=
  if docking_score > 0 then "high confidence"
  else if docking_score > Rat.divInt (-3) 2 then "moderate confidence"
  else "low confidence"

/-- Function `uniprot_id_from_path` (source lines 207-215): Python
`re.search(r'/([^/]+)\.pdb$', path)` — the path must end in `.pdb`, with a
nonempty slash-free segment just before it, preceded by a `/`.  `none`
models the `ValueError` raise. -/
def uniprot_id_from_path (protein_file_path : String) : Option String :=
  if strEndsWith protein_file_path ".pdb" then
    let parts := splitChar '/' (strDropRight protein_file_path 4).data
    if parts.length ≥ 2 then
      match parts.getLast? with
      | some seg => if seg = [] then none else some ⟨seg⟩
      | none => none
    else none
  else none

/-- A basename matches the glob `rank1_confidence*.sdf` of source line 170
iff it is `"rank1_confidence" ++ mid ++ ".sdf"` for some (possibly empty)
`mid`. -/
def matchesRankGlob (name : String) : Bool :=
  strStartsWith name "rank1_confidence" && strEndsWith (strDrop name 16) ".sdf"

/-- Python's `basename[len("rank1_confidence"):-len(".sdf")]` of source line 180. -/
def scoreStr (name : String) : String :=
  strDropRight (strDrop name 16) 4

end DiffDock

namespace DiffDock

/-- Association-list lookup keyed by decidable string equality (Python
dict / filesystem lookups). -/
def lookupStr {α : Type} (k : String) : List (String × α) → Option α
  | [] => none
  | (k2, v) :: rest => if k = k2 then some v else lookupStr k rest

/-- Decimal digit character for `m % 10`. -/
def digitChar10 : Nat → Char
  | 0 => '0' | 1 => '1' | 2 => '2' | 3 => '3' | 4 => '4'
  | 5 => '5' | 6 => '6' | 7 => '7' | 8 => '8' | _ => '9'

/-- Little-endian decimal digits of `n`, with explicit fuel so the
definition is structural (and evaluates in the kernel). -/
def natDigitsRev : Nat → Nat → List Char
  | 0, _ => []
  | fuel + 1, n =>
      if n = 0 then [] else digitChar10 (n % 10) :: natDigitsRev fuel (n / 10)

/-- Python's `str()` of a nonnegative integer. -/
def pyStrNat (n : Nat) : String :=
  if n = 0 then "0" else ⟨(natDigitsRev n n).reverse⟩

/-- Python's `str()` of an `int` (decimal, with a leading minus sign when
negative); agrees with the interpolation `f"{proc.returncode}"`. -/
def pyStrInt : Int → String
  | .ofNat n => pyStrNat n
  | .negSucc n => "-" ++ pyStrNat (n + 1)

/-- Observable outcome of the external DiffDock subprocess run by
`perform_docking_uniprot` (source lines 144-157): exit code, captured
output streams, and what it wrote under the scratch directory — whether
the `complex_0` subdirectory exists and the (basename, content) files
inside it. -/
structure ProcOutcome where
  returncode : Int
  stdout : String
  stderr : String
  complexDirExists : Bool
  complexFiles : List (String × String)
deriving DecidableEq

/-- The exceptions `perform_docking_uniprot` can raise from inside the
scratch-directory block (source lines 159-181). -/
inductive DockErr where
  | execFailed (rc : Int) (stderr stdout : String)
  | noComplexDir
  | noRankFile
  | scoreParseFailed (score_str : String)
deriving DecidableEq

/-- Python `str(e)` for each `DockErr`, with the exact message literals of
source lines 160, 168, 172 (and CPython's `ValueError` text for
`float()`). -/
def DockErr.msg : DockErr → String
  | .execFailed rc _ _ => "DiffDock failed with return code " ++ pyStrInt rc
  | .noComplexDir => "Docking completed but no pose was generated. This may happen if DiffDock was unable to sample a valid pose for the given protein-ligand pair."
  | .noRankFile => "No docking pose was generated. DiffDock may have failed to sample a valid pose for this protein-ligand pair."
  | .scoreParseFailed s => "could not convert string to float: " ++ s

/-- The `docking_result` dict of source lines 195-201. -/
structure DockResult where
  docking_score : ℚ
  docking_confidence : String
  pose : String
  uniprot_id : String
  ligand : String
deriving DecidableEq

/-- Body of the scratch-directory block of `perform_docking_uniprot`
(source lines 159-202), as a function of the subprocess outcome: check the
return code, the `complex_0` directory, glob for
`rank1_confidence*.sdf`, take the first match, parse the score from its
name, classify it, and read the file content verbatim as the pose. -/
def performBody (o : ProcOutcome) (uniprot_id ligand : String) :
    Except DockErr DockResult :=
  if o.returncode ≠ 0 then .error (.execFailed o.returncode o.stderr o.stdout)
  else if o.complexDirExists = false then .error .noComplexDir
  else
    match o.complexFiles.filter (fun f => matchesRankGlob f.1) with
    | [] => .error .noRankFile
    | (name, content) :: _ =>
        match pyFloat (scoreStr name) with
        | none => .error (.scoreParseFailed (scoreStr name))
        | some docking_score =>
            .ok { docking_score, docking_confidence := classify docking_score,
                  pose := content, uniprot_id, ligand }

/-- A filesystem viewed as the set (list) of existing paths, for the
scratch-directory claim. -/
abbrev FS := List String

/-- Is `p` the scratch directory itself or a path under it? -/
def underScratch (tmpdir p : String) : Bool :=
  p = tmpdir || strStartsWith p (tmpdir ++ "/")

/-- The paths the scratch directory holds while the block runs: the
directory itself, the `complex_0` subdirectory when the process created
it, and the files the process wrote inside it. -/
def scratchPaths (tmpdir : String) (o : ProcOutcome) : FS :=
  tmpdir :: ((if o.complexDirExists then [tmpdir ++ "/complex_0"] else [])
    ++ o.complexFiles.map (fun f => tmpdir ++ "/complex_0/" ++ f.1))

/-- The exceptions `perform_docking_uniprot` can raise overall: the
`ValueError` of `uniprot_id_from_path` (raised before the scratch
directory is created, source line 131) or a `DockErr` from inside the
block. -/
inductive PerformErr where
  | badPath
  | dock (e : DockErr)
deriving DecidableEq

/-- Function `perform_docking_uniprot` (source lines 118-202) with the
filesystem explicit.  `with tempfile.TemporaryDirectory()` creates the
scratch directory, the subprocess populates it, the body runs, and the
context manager removes the whole tree on normal and exceptional exit
alike — every exit path of the body is inside the `with` block. -/
def perform_docking_uniprot (o : ProcOutcome) (protein_file_path ligand : String)
    (tmpdir : String) (fs : FS) : Except PerformErr DockResult × FS :=
  match uniprot_id_from_path protein_file_path with
  | none => (.error .badPath, fs)
  | some uid =>
      let fsDuring := fs ++ scratchPaths tmpdir o
      let fsAfter := fsDuring.filter (fun p => !(underScratch tmpdir p))
      ((performBody o uid ligand).mapError .dock, fsAfter)

end DiffDock

namespace DiffDock

/-- The success payload of source lines 225-228 (`status` is the literal
`"completed"`). -/
structure SuccessPayload where
  status : String
  result : DockResult
deriving DecidableEq

/-- The `error_payload` of source lines 240-249.  The `traceback` field
(runtime `traceback.format_exc()` text) is not modelled; the remaining
fields are. -/
structure FailurePayload where
  status : String
  error_type : String
  uniprot_id : String
  ligand : String
  error : String
  stderr : String
  error_code : Nat
deriving DecidableEq

/-- A callback POST attempted by `process_docking_request_uniprot`. -/
inductive Sent where
  | success (p : SuccessPayload)
  | failure (p : FailurePayload)
deriving DecidableEq

/-- Does a sent payload report the job as failed? -/
def Sent.isFailureReport : Sent → Bool
  | .failure _ => true
  | .success _ => false

/-- Source line 239: `error_type = "no_pose_generated" if "No docking pose
was generated" in str(e) else "inference_error"`. -/
def errorTypeOf (msg : String) : String :=
  if strContains msg "No docking pose was generated" then "no_pose_generated"
  else "inference_error"

/-- The `error_payload` construction of source lines 240-249. -/
def mkErrorPayload (msg stderrInfo uid ligand : String) : FailurePayload :=
  { status := "failed", error_type := errorTypeOf msg, uniprot_id := uid,
    ligand := ligand, error := msg, stderr := stderrInfo, error_code := 500 }

/-- Outcomes of the HTTP world: whether the POST of the first payload
succeeds (`response.raise_for_status()` does not raise), the `str()` of
the httpx exception when it fails, and whether the error-payload POST
succeeds (its outcome is swallowed by the inner `try` either way). -/
structure Net where
  firstPostOk : Bool
  httpErrMsg : String
  secondPostOk : Bool
deriving DecidableEq

/-- Function `process_docking_request_uniprot` (source lines 217-257), as
a function of the docking outcome and the HTTP world.  Returns the
callback POSTs attempted, in order, and whether the coroutine raises an
uncaught exception (which would propagate to the Celery task `dock_job`).

Source semantics: the `try` block performs docking and POSTs the success
payload; ANY exception — including a delivery failure of that success
POST — lands in the `except` block, which recomputes the UniProt id from
the path (re-raising its `ValueError` uncaught), builds `error_payload`
with `errorTypeOf` applied to `str(e)` and `stderr_info` from the
exception's `stderr` attribute when present (the httpx delivery error has
none), and POSTs it, swallowing any error of that second POST. -/
def process_docking_request_uniprot (net : Net)
    (dock : Except PerformErr DockResult) (protein_file_path ligand : String) :
    List Sent × Bool :=
  match dock with
  | .ok r =>
      let sp : SuccessPayload := { status := "completed", result := r }
      if net.firstPostOk then ([.success sp], false)
      else
        match uniprot_id_from_path protein_file_path with
        | none => ([.success sp], true)
        | some uid =>
            ([.success sp, .failure (mkErrorPayload net.httpErrMsg "" uid ligand)],
             false)
  | .error e =>
      let msg := match e with
        | .badPath => "Invalid protein file path: Unable to extract UniProt ID."
        | .dock d => d.msg
      let stderrInfo := match e with
        | .dock (.execFailed _ st _) => st
        | _ => ""
      match uniprot_id_from_path protein_file_path with
      | none => ([], true)
      | some uid => ([.failure (mkErrorPayload msg stderrInfo uid ligand)], false)

/-- One full run of the Celery task `dock_job` (source lines 44-51):
`perform_docking_uniprot` composed with
`process_docking_request_uniprot`, threading the filesystem. -/
def dock_job_run (o : ProcOutcome) (net : Net)
    (protein_file_path ligand tmpdir : String) (fs : FS) :
    (List Sent × Bool) × FS :=
  let r := perform_docking_uniprot o protein_file_path ligand tmpdir fs
  (process_docking_request_uniprot net r.1 protein_file_path ligand, r.2)

end DiffDock

namespace DiffDock

/-- A filesystem with contents: existing paths mapped to their text (file
size is content length). -/
abbrev CFS := List (String × String)

/-- Function `unzip_pdb_gz` (source lines 259-276), with gzip
decompression passed in as a function: if the destination `.pdb` already
exists it is returned untouched; otherwise the `.pdb.gz` source is
required (`FileNotFoundError`, modelled as `.error`, when absent) and
decompressed to the destination. -/
def unzip_pdb_gz (gunzip : String → String) (fs : CFS)
    (uniprot_id source_dir dest_dir : String) : Except String (String × CFS) :=
  let pdb_gz_file := source_dir ++ "/" ++ uniprot_id ++ ".pdb.gz"
  let pdb_file := dest_dir ++ "/" ++ uniprot_id ++ ".pdb"
  if (lookupStr pdb_file fs).isSome then .ok (pdb_file, fs)
  else
    match lookupStr pdb_gz_file fs with
    | none => .error ("Source file " ++ pdb_gz_file ++ " not found.")
    | some gz => .ok (pdb_file, (pdb_file, gunzip gz) :: fs)

/-- The record Celery's result backend stores for a task: its state
string and the representation of its result/exception. -/
structure CeleryRecord where
  status : String
  result : String
deriving DecidableEq

/-- Status reported by `celery.result.AsyncResult(task_id).status`:
the backend's state for the id, and — per Celery's documented default —
the string `"PENDING"` when the backend holds no record of the id
(Celery never reports "unknown task"). -/
def AsyncResult_status (backend : List (String × CeleryRecord))
    (task_id : String) : String :=
  ((lookupStr task_id backend).map CeleryRecord.status).getD "PENDING"

/-- The JSON response of the status endpoint. -/
structure StatusResponse where
  code : Nat
  task_id : String
  status : String
  result : Option String
  error : Option String
deriving DecidableEq

/-- Handler `get_job_status` (source lines 105-116): build
`{"task_id": ..., "status": res.status}`, add `result` on `"SUCCESS"` and
`error` on `"FAILURE"`, and return it as a `JSONResponse` — HTTP 200
unconditionally; the handler has no not-found branch and raises no
`HTTPException`. -/
def get_job_status (backend : List (String × CeleryRecord))
    (task_id : String) : StatusResponse :=
  let r := lookupStr task_id backend
  let st := AsyncResult_status backend task_id
  { code := 200, task_id := task_id, status := st,
    result := if st = "SUCCESS" then r.map CeleryRecord.result else none,
    error := if st = "FAILURE" then r.map CeleryRecord.result else none }

/-- Source line 76: `LOCAL_PROTEIN_DIR = "./local_proteins"`. -/
def LOCAL_PROTEIN_DIR : String := "./local_proteins"

/-- Response of the submit endpoint: either HTTP 200 with
`{"message": "Docking enqueued", "task_id": ...}` or an `HTTPException`
with a status code and detail. -/
inductive SubmitResult where
  | enqueued (message task_id : String)
  | httpError (code : Nat) (detail : String)
deriving DecidableEq

/-- The message `dock_job.delay(...)` places on the Celery broker queue. -/
structure TaskMsg where
  task_id : String
  callback_url : String
  protein_file_path : String
  ligand : String
deriving DecidableEq

/-- Handler `start_docking_uniprot` (source lines 83-103), with rdkit
SMILES validation and gzip decompression passed in as functions and the
task id freshly generated by Celery passed in as `freshId`.  Returns the
HTTP response, the possibly-extended filesystem, and the queue messages
enqueued.  Note that `dock_job.delay` only publishes to the broker: the
result backend is not written at submit time. -/
def start_docking_uniprot (smilesValid : String → Bool)
    (gunzip : String → String) (fs : CFS) (freshId : String)
    (uniprot_id ligand callback_url : String) :
    SubmitResult × CFS × List TaskMsg :=
  if !(smilesValid ligand) then
    (.httpError 400 ("Invalid SMILES: " ++ ligand), fs, [])
  else
    let path0 := LOCAL_PROTEIN_DIR ++ "/" ++ uniprot_id ++ ".pdb"
    let located : Except String (String × CFS) :=
      if (lookupStr path0 fs).isSome then .ok (path0, fs)
      else unzip_pdb_gz gunzip fs uniprot_id LOCAL_PROTEIN_DIR LOCAL_PROTEIN_DIR
    match located with
    | .error _ => (.httpError 404 ("Protein " ++ uniprot_id ++ " not found"), fs, [])
    | .ok (p, fs2) =>
        if ((lookupStr p fs2).getD "").length < 500 then
          (.httpError 400 ("PDB for " ++ uniprot_id ++ " looks too small"), fs2, [])
        else
          (.enqueued "Docking enqueued" freshId, fs2,
           [{ task_id := freshId, callback_url := callback_url,
              protein_file_path := p, ligand := ligand }])

end DiffDock

namespace DiffDock

-- Sanity checks on the pure helpers.
example : pyFloat "0.17" = some (Rat.divInt 17 100) := by decide
example : pyFloat "-1.5" = some (Rat.divInt (-3) 2) := by decide
example : pyFloat "" = none := by decide
example : pyFloat "1e2" = some (Rat.divInt 100 1) := by decide
example : pyFloat "-2.5e-1" = some (Rat.divInt (-1) 4) := by decide
example : classify (Rat.divInt 17 100) = "high confidence" := by decide
example : classify (Rat.divInt 0 1) = "moderate confidence" := by decide
example : classify (Rat.divInt (-3) 2) = "low confidence" := by decide
example : uniprot_id_from_path "./local_proteins/P12345.pdb" = some "P12345" := by decide
example : uniprot_id_from_path "P12345.pdb" = none := by decide
example : matchesRankGlob "rank1_confidence0.17.sdf" = true := by decide
example : matchesRankGlob "rank1_confidence.sdf" = true := by decide
example : matchesRankGlob "rank2_confidence0.17.sdf" = false := by decide
example : scoreStr "rank1_confidence0.17.sdf" = "0.17" := by decide
example : strContains "Docking completed but no pose was generated." "No docking pose was generated" = false := by decide
example : strContains "No docking pose was generated. More." "No docking pose was generated" = true := by decide

end DiffDock

namespace DiffDock

-- Sanity checks on the service model.
example :
    performBody { returncode := 0, stdout := "", stderr := "",
                  complexDirExists := true,
                  complexFiles := [("rank1_confidence0.17.sdf", "POSE")] }
        "P12345" "CCO"
      = .ok { docking_score := Rat.divInt 17 100,
              docking_confidence := "high confidence", pose := "POSE",
              uniprot_id := "P12345", ligand := "CCO" } := by decide

example :
    errorTypeOf (DockErr.noComplexDir).msg = "inference_error" := by decide

example :
    errorTypeOf (DockErr.noRankFile).msg = "no_pose_generated" := by decide

example :
    errorTypeOf (DockErr.execFailed 1 "boom" "").msg = "inference_error" := by decide

example :
    get_job_status [] "deadbeef"
      = { code := 200, task_id := "deadbeef", status := "PENDING",
          result := none, error := none } := by decide

end DiffDock

namespace DiffDock

/-! Helper lemmas shared by the claim theorems. -/

lemma digitChar10_ne (m : Nat) : digitChar10 m ≠ 'N' := by
  match m with
  | 0 | 1 | 2 | 3 | 4 | 5 | 6 | 7 | 8 => decide
  | n + 9 => exact (by decide : ¬ ('9' : Char) = 'N')

lemma mem_natDigitsRev (c : Char) (fuel n : Nat)
    (h : c ∈ natDigitsRev fuel n) : ∃ m, c = digitChar10 m := by
  induction fuel generalizing n with
  | zero => simp [natDigitsRev] at h
  | succ fuel ih =>
      rw [natDigitsRev] at h
      by_cases hn : n = 0
      · simp [hn] at h
      · rw [if_neg hn] at h
        rcases List.mem_cons.mp h with h1 | h1
        · exact ⟨n % 10, h1⟩
        · exact ih _ h1

lemma N_not_mem_pyStrNat (n : Nat) : 'N' ∉ (pyStrNat n).data := by
  unfold pyStrNat
  by_cases hn : n = 0
  · rw [if_pos hn]; decide
  · rw [if_neg hn]
    intro hmem
    rw [List.mem_reverse] at hmem
    obtain ⟨m, hm⟩ := mem_natDigitsRev _ _ _ hmem
    exact digitChar10_ne m hm.symm

lemma N_not_mem_pyStrInt (i : Int) : 'N' ∉ (pyStrInt i).data := by
  cases i with
  | ofNat n => exact N_not_mem_pyStrNat n
  | negSucc n =>
      show 'N' ∉ ("-" ++ pyStrNat (n + 1)).data
      rw [String.data_append]
      intro hmem
      rcases List.mem_append.mp hmem with h | h
      · simp at h
      · exact N_not_mem_pyStrNat (n + 1) h

lemma containsSub_head_mem (c : Char) (pat l : List Char)
    (h : containsSub (c :: pat) l = true) : c ∈ l := by
  induction l with
  | nil => simp [containsSub, dropPrefixL] at h
  | cons x xs ih =>
      rw [containsSub, Bool.or_eq_true] at h
      rcases h with h | h
      · rw [dropPrefixL] at h
        by_cases hx : x = c
        · exact hx ▸ List.mem_cons_self x xs
        · rw [if_neg hx] at h; simp at h
      · exact List.mem_cons_of_mem x (ih h)

lemma execMsg_no_magic (rc : Int) (st so : String) :
    strContains (DockErr.execFailed rc st so).msg
      "No docking pose was generated" = false := by
  have hpat : ("No docking pose was generated" : String).data
      = 'N' :: "o docking pose was generated".data := rfl
  unfold strContains
  rw [hpat]
  by_contra hcon
  rw [Bool.not_eq_false] at hcon
  have hmem := containsSub_head_mem _ _ _ hcon
  have hdata : (DockErr.execFailed rc st so).msg.data
      = ("DiffDock failed with return code " : String).data
        ++ (pyStrInt rc).data := by
    show ("DiffDock failed with return code " ++ pyStrInt rc).data = _
    rw [String.data_append]
  rw [hdata] at hmem
  rcases List.mem_append.mp hmem with h | h
  · revert h; decide
  · exact N_not_mem_pyStrInt rc h

lemma errorTypeOf_execMsg (rc : Int) (st so : String) :
    errorTypeOf (DockErr.execFailed rc st so).msg = "inference_error" := by
  unfold errorTypeOf
  rw [execMsg_no_magic]
  rfl

lemma getStatus_unknown (backend : List (String × CeleryRecord))
    (task_id : String) (h : lookupStr task_id backend = none) :
    get_job_status backend task_id
      = { code := 200, task_id := task_id, status := "PENDING",
          result := none, error := none } := by
  unfold get_job_status AsyncResult_status
  rw [h]
  rfl

lemma perform_ok_inv (o : ProcOutcome) (path ligand tmpdir : String)
    (fs : FS) (r : DockResult)
    (h : (perform_docking_uniprot o path ligand tmpdir fs).1 = .ok r) :
    ∃ uid, uniprot_id_from_path path = some uid
      ∧ performBody o uid ligand = .ok r := by
  unfold perform_docking_uniprot at h
  cases hu : uniprot_id_from_path path with
  | none => rw [hu] at h; exact absurd h (by simp)
  | some uid =>
      rw [hu] at h
      refine ⟨uid, rfl, ?_⟩
      have h2 : (performBody o uid ligand).mapError PerformErr.dock = .ok r := h
      cases hb : performBody o uid ligand with
      | error e =>
          rw [hb] at h2
          exact absurd h2 (by simp [Except.mapError])
      | ok r2 =>
          rw [hb] at h2
          have hr : r2 = r := by simpa [Except.mapError] using h2
          rw [hr]

end DiffDock

namespace DiffDock

/-- C6: Confidence classification is a pure function of the numeric
score with strict boundaries: for every score it is classified at the
high level iff score > 0.0, at the moderate level iff
-1.5 < score ≤ 0.0, and at the low level iff score ≤ -1.5; in
particular score = 0.0 classifies moderate and score = -1.5 classifies
low.  (The classification labels produced by the code are the strings
"high confidence" / "moderate confidence" / "low confidence".) -/
theorem C6_confidence_thresholds (s : ℚ) :
    (classify s = "high confidence" ↔ 0 < s)
    ∧ (classify s = "moderate confidence" ↔ (-3/2 < s ∧ s ≤ 0))
    ∧ (classify s = "low confidence" ↔ s ≤ -3/2)
    ∧ classify 0 = "moderate confidence"
    ∧ classify (-3/2) = "low confidence" := by
  have hd : Rat.divInt (-3) 2 = (-3/2 : ℚ) := by
    rw [Rat.divInt_eq_div]; norm_num
  have key : ∀ t : ℚ,
      (classify t = "high confidence" ↔ 0 < t)
      ∧ (classify t = "moderate confidence" ↔ (-3/2 < t ∧ t ≤ 0))
      ∧ (classify t = "low confidence" ↔ t ≤ -3/2) := by
    intro t
    unfold classify
    rw [hd]
    split_ifs with h1 h2
    · exact ⟨⟨fun _ => h1, fun _ => rfl⟩,
        ⟨fun h => absurd h (by decide), fun h => absurd h1 (not_lt.mpr h.2)⟩,
        ⟨fun h => absurd h (by decide),
         fun h => absurd h1 (not_lt.mpr (h.trans (by norm_num)))⟩⟩
    · exact ⟨⟨fun h => absurd h (by decide), fun h => absurd h h1⟩,
        ⟨fun _ => ⟨h2, not_lt.mp h1⟩, fun _ => rfl⟩,
        ⟨fun h => absurd h (by decide), fun h => absurd h2 (not_lt.mpr h)⟩⟩
    · exact ⟨⟨fun h => absurd h (by decide), fun h => absurd h h1⟩,
        ⟨fun h => absurd h (by decide), fun h => absurd h.1 h2⟩,
        ⟨fun _ => not_lt.mp h2, fun _ => rfl⟩⟩
  exact ⟨(key s).1, (key s).2.1, (key s).2.2,
    (key 0).2.1.mpr ⟨by norm_num, le_refl 0⟩,
    (key (-3/2)).2.2.mpr (le_refl _)⟩

/-- C6 witness: the theorem instantiated at the boundary score 0. -/
theorem C6_witness : classify 0 = "moderate confidence" :=
  (C6_confidence_thresholds 0).2.2.2.1

/-- C4 (counterexample): for a task id never issued, the status endpoint
does not respond 404 — it returns HTTP 200 with Celery status "PENDING"
for an id absent from the result backend. -/
theorem C4_counterexample :
    get_job_status [] "unknown-task-id"
      = { code := 200, task_id := "unknown-task-id", status := "PENDING",
          result := none, error := none }
    ∧ (get_job_status [] "unknown-task-id").code ≠ 404 := by decide

/-- C4 (amended): a status query for a job id that is unknown to the
result backend does not fail with a not-found error; the endpoint has no
404 branch and answers HTTP 200 with Celery status "PENDING" and no
result or error fields. -/
theorem C4_amended_unknown_id (backend : List (String × CeleryRecord))
    (task_id : String) (h : lookupStr task_id backend = none) :
    get_job_status backend task_id
      = { code := 200, task_id := task_id, status := "PENDING",
          result := none, error := none } :=
  getStatus_unknown backend task_id h

/-- C4 witness: the amended theorem at a concrete nonempty backend and an
id the backend does not hold. -/
theorem C4_witness :
    get_job_status [("task-a", { status := "SUCCESS", result := "null" })]
        "task-b"
      = { code := 200, task_id := "task-b", status := "PENDING",
          result := none, error := none } :=
  C4_amended_unknown_id [("task-a", { status := "SUCCESS", result := "null" })]
    "task-b" (by decide)

/-- C10: `unzip_pdb_gz` short-circuits on an existing target — if the
destination `.pdb` exists it is returned unchanged without requiring the
`.pdb.gz` source; it raises `FileNotFoundError` exactly when both the
`.pdb` and the `.pdb.gz` are missing; and a second call returns the same
path and filesystem as the first (idempotence). -/
theorem C10_unzip_idempotent (gunzip : String → String) (fs : CFS)
    (uniprot_id source_dir dest_dir : String) :
    ((lookupStr (dest_dir ++ "/" ++ uniprot_id ++ ".pdb") fs).isSome →
      unzip_pdb_gz gunzip fs uniprot_id source_dir dest_dir
        = .ok (dest_dir ++ "/" ++ uniprot_id ++ ".pdb", fs))
    ∧ ((∃ e, unzip_pdb_gz gunzip fs uniprot_id source_dir dest_dir = .error e)
        ↔ lookupStr (dest_dir ++ "/" ++ uniprot_id ++ ".pdb") fs = none
          ∧ lookupStr (source_dir ++ "/" ++ uniprot_id ++ ".pdb.gz") fs = none)
    ∧ (∀ p fs2,
        unzip_pdb_gz gunzip fs uniprot_id source_dir dest_dir = .ok (p, fs2) →
        unzip_pdb_gz gunzip fs2 uniprot_id source_dir dest_dir = .ok (p, fs2)) := by
  by_cases h1 : (lookupStr (dest_dir ++ "/" ++ uniprot_id ++ ".pdb") fs).isSome
  · have heq : unzip_pdb_gz gunzip fs uniprot_id source_dir dest_dir
        = .ok (dest_dir ++ "/" ++ uniprot_id ++ ".pdb", fs) := by
      unfold unzip_pdb_gz
      rw [if_pos h1]
    refine ⟨fun _ => heq, ?_, ?_⟩
    · constructor
      · rintro ⟨e, he⟩
        rw [heq] at he
        exact absurd he (by simp)
      · rintro ⟨hpdb, -⟩
        rw [hpdb] at h1
        exact absurd h1 (by simp)
    · intro p fs2 hok
      rw [heq] at hok
      obtain ⟨hp, hfs2⟩ := Prod.mk.injEq .. ▸ Except.ok.inj hok
      rw [← hp, ← hfs2]
      exact heq
  · cases hgz : lookupStr (source_dir ++ "/" ++ uniprot_id ++ ".pdb.gz") fs with
    | none =>
        have heq : unzip_pdb_gz gunzip fs uniprot_id source_dir dest_dir
            = .error ("Source file " ++ (source_dir ++ "/" ++ uniprot_id ++ ".pdb.gz")
                ++ " not found.") := by
          unfold unzip_pdb_gz
          rw [if_neg h1, hgz]
        refine ⟨fun hs => absurd hs h1, ?_, ?_⟩
        · exact ⟨fun _ => ⟨Option.not_isSome_iff_eq_none.mp h1, rfl⟩,
            fun _ => ⟨_, heq⟩⟩
        · intro p fs2 hok
          rw [heq] at hok
          exact absurd hok (by simp)
    | some gz =>
        have heq : unzip_pdb_gz gunzip fs uniprot_id source_dir dest_dir
            = .ok (dest_dir ++ "/" ++ uniprot_id ++ ".pdb",
                   (dest_dir ++ "/" ++ uniprot_id ++ ".pdb", gunzip gz) :: fs) := by
          unfold unzip_pdb_gz
          rw [if_neg h1, hgz]
        refine ⟨fun hs => absurd hs h1, ?_, ?_⟩
        · constructor
          · rintro ⟨e, he⟩
            rw [heq] at he
            exact absurd he (by simp)
          · rintro ⟨-, hgz2⟩
            exact absurd hgz2 (by simp)
        · intro p fs2 hok
          rw [heq] at hok
          obtain ⟨hp, hfs2⟩ := Prod.mk.injEq .. ▸ Except.ok.inj hok
          have h2 : (lookupStr (dest_dir ++ "/" ++ uniprot_id ++ ".pdb") fs2).isSome := by
            rw [← hfs2]
            simp [lookupStr]
          unfold unzip_pdb_gz
          rw [if_pos h2, ← hp, ← hfs2]

/-- C10 witness: the theorem's short-circuit clause at a filesystem that
already holds the destination file (and no gzip source). -/
theorem C10_witness :
    unzip_pdb_gz (fun s => s) [("./local_proteins/P12345.pdb", "ATOMDATA")]
        "P12345" "./local_proteins" "./local_proteins"
      = .ok ("./local_proteins/P12345.pdb",
             [("./local_proteins/P12345.pdb", "ATOMDATA")]) :=
  (C10_unzip_idempotent (fun s => s)
      [("./local_proteins/P12345.pdb", "ATOMDATA")]
      "P12345" "./local_proteins" "./local_proteins").1 (by decide)

/-- C2 (code evaluated at the failing input): with the compute process
exiting zero, the "no `complex_0` subdirectory" case is delivered with
callback `error_type` `"inference_error"` — its exception message
"Docking completed but no pose was generated. ..." does not contain the
checked substring "No docking pose was generated" — while the
"subdirectory present but no matching artifact" case is delivered with
`error_type` `"no_pose_generated"`; the claim that both zero-exit
no-result cases are classified `"no_pose_generated"` fails on the first
case. -/
theorem C2_code_bug_eval :
    ((dock_job_run
        { returncode := 0, stdout := "", stderr := "",
          complexDirExists := false, complexFiles := [] }
        { firstPostOk := true, httpErrMsg := "", secondPostOk := true }
        "./local_proteins/P12345.pdb" "CCO" "/tmp/dock" []).1
      = ([Sent.failure
            { status := "failed", error_type := "inference_error",
              uniprot_id := "P12345", ligand := "CCO",
              error := "Docking completed but no pose was generated. This may happen if DiffDock was unable to sample a valid pose for the given protein-ligand pair.",
              stderr := "", error_code := 500 }], false))
    ∧ ((dock_job_run
        { returncode := 0, stdout := "", stderr := "",
          complexDirExists := true, complexFiles := [] }
        { firstPostOk := true, httpErrMsg := "", secondPostOk := true }
        "./local_proteins/P12345.pdb" "CCO" "/tmp/dock" []).1
      = ([Sent.failure
            { status := "failed", error_type := "no_pose_generated",
              uniprot_id := "P12345", ligand := "CCO",
              error := "No docking pose was generated. DiffDock may have failed to sample a valid pose for this protein-ligand pair.",
              stderr := "", error_code := 500 }], false))
    ∧ "inference_error" ≠ "no_pose_generated" := by decide

/-- C3 (counterexample): a non-zero process exit is delivered with
callback `error_type` `"inference_error"`, not `"execution_failed"` (a
string that appears nowhere in the code); the captured stderr rides in
the payload's `stderr` field. -/
theorem C3_counterexample :
    (dock_job_run
        { returncode := 1, stdout := "", stderr := "CUDA error: out of memory",
          complexDirExists := false, complexFiles := [] }
        { firstPostOk := true, httpErrMsg := "", secondPostOk := true }
        "./local_proteins/P12345.pdb" "CCO" "/tmp/dock" []).1
      = ([Sent.failure
            { status := "failed", error_type := "inference_error",
              uniprot_id := "P12345", ligand := "CCO",
              error := "DiffDock failed with return code 1",
              stderr := "CUDA error: out of memory", error_code := 500 }], false)
    ∧ "inference_error" ≠ "execution_failed" := by decide

/-- C3 (amended): for every execution in which the compute process exits
non-zero, exactly one failure callback is attempted; its payload has
status "failed", `error_type` `"inference_error"` (the code's catch-all
label — the enumerated kind "execution_failed" is never produced), the
message "DiffDock failed with return code N", and the process's captured
standard-error text in the `stderr` field; the coroutine itself does not
raise. -/
theorem C3_amended_nonzero_exit (o : ProcOutcome) (net : Net)
    (path ligand tmpdir uid : String) (fs : FS)
    (hrc : o.returncode ≠ 0) (hpath : uniprot_id_from_path path = some uid) :
    (dock_job_run o net path ligand tmpdir fs).1
      = ([Sent.failure
            { status := "failed", error_type := "inference_error",
              uniprot_id := uid, ligand := ligand,
              error := "DiffDock failed with return code " ++ pyStrInt o.returncode,
              stderr := o.stderr, error_code := 500 }], false) := by
  have hs : errorTypeOf ("DiffDock failed with return code " ++ pyStrInt o.returncode)
      = "inference_error" := errorTypeOf_execMsg o.returncode o.stderr o.stdout
  simp only [dock_job_run, perform_docking_uniprot, hpath, performBody,
    if_pos hrc, Except.mapError, process_docking_request_uniprot,
    DockErr.msg, mkErrorPayload, hs]

/-- C3 witness: the amended theorem at a concrete execution that exited
with code 137. -/
theorem C3_witness :
    (dock_job_run
        { returncode := 137, stdout := "", stderr := "Killed",
          complexDirExists := false, complexFiles := [] }
        { firstPostOk := true, httpErrMsg := "", secondPostOk := true }
        "./local_proteins/Q8N726.pdb" "c1ccccc1" "/tmp/dock" []).1
      = ([Sent.failure
            { status := "failed", error_type := "inference_error",
              uniprot_id := "Q8N726", ligand := "c1ccccc1",
              error := "DiffDock failed with return code " ++ pyStrInt 137,
              stderr := "Killed", error_code := 500 }], false) :=
  C3_amended_nonzero_exit
    { returncode := 137, stdout := "", stderr := "Killed",
      complexDirExists := false, complexFiles := [] }
    { firstPostOk := true, httpErrMsg := "", secondPostOk := true }
    "./local_proteins/Q8N726.pdb" "c1ccccc1" "/tmp/dock" "Q8N726" []
    (by decide) (by decide)

/-- Inversion for a successfully enqueued submit: every `enqueued`
response carries the message "Docking enqueued" and the freshly generated
task id. -/
lemma submit_enqueued_inv (smilesValid : String → Bool)
    (gunzip : String → String) (fs : CFS)
    (freshId uniprot_id ligand cb msg tid : String)
    (hok : (start_docking_uniprot smilesValid gunzip fs freshId
              uniprot_id ligand cb).1 = .enqueued msg tid) :
    msg = "Docking enqueued" ∧ tid = freshId := by
  simp only [start_docking_uniprot] at hok
  split at hok
  · simp at hok
  · split at hok
    · simp at hok
    · split at hok
      · simp at hok
      · simp at hok
        exact ⟨hok.1.symm, hok.2.symm⟩

/-- C5 (counterexample): immediately after a valid submit, the status
endpoint reports the Celery status string "PENDING" — not "queued", and
not any of the four claimed values queued/running/succeeded/failed. -/
theorem C5_counterexample :
    ((start_docking_uniprot (fun _ => true) (fun s => s)
        [("./local_proteins/P12345.pdb", ⟨List.replicate 500 'A'⟩)]
        "celery-task-1" "P12345" "CCO" "http://cb/done").1
      = .enqueued "Docking enqueued" "celery-task-1")
    ∧ (get_job_status [] "celery-task-1").status = "PENDING"
    ∧ "PENDING" ≠ "queued"
    ∧ "PENDING" ∉ (["queued", "running", "succeeded", "failed"] : List String) := by
  decide

/-- C5 (amended): for every submit request accepted by the handler (an
`enqueued` response), the task id returned is the freshly generated
Celery id, the result backend is not written by the submit, and an
immediate status query for that id answers HTTP 200 with Celery status
"PENDING" (never a not-found failure); "PENDING" is Celery vocabulary,
not one of queued/running/succeeded/failed. -/
theorem C5_amended_submit_status (smilesValid : String → Bool)
    (gunzip : String → String) (fs : CFS)
    (backend : List (String × CeleryRecord))
    (freshId uniprot_id ligand cb msg tid : String)
    (hfresh : lookupStr freshId backend = none)
    (hok : (start_docking_uniprot smilesValid gunzip fs freshId
              uniprot_id ligand cb).1 = .enqueued msg tid) :
    tid = freshId
    ∧ get_job_status backend tid
      = { code := 200, task_id := tid, status := "PENDING",
          result := none, error := none }
    ∧ "PENDING" ∉ (["queued", "running", "succeeded", "failed"] : List String) := by
  obtain ⟨-, htid⟩ := submit_enqueued_inv smilesValid gunzip fs freshId
    uniprot_id ligand cb msg tid hok
  refine ⟨htid, ?_, by decide⟩
  rw [htid]
  exact getStatus_unknown backend freshId hfresh

/-- C5 witness: the amended theorem at a concrete accepted submit against
an empty result backend. -/
theorem C5_witness :
    "celery-task-9" = "celery-task-9"
    ∧ get_job_status [] "celery-task-9"
      = { code := 200, task_id := "celery-task-9", status := "PENDING",
          result := none, error := none }
    ∧ "PENDING" ∉ (["queued", "running", "succeeded", "failed"] : List String) :=
  C5_amended_submit_status (fun _ => true) (fun s => s)
    [("./local_proteins/P31946.pdb", ⟨List.replicate 600 'B'⟩)] []
    "celery-task-9" "P31946" "CCO" "http://cb/done" "Docking enqueued"
    "celery-task-9" (by decide) (by decide)

/-- C1 (counterexample): a docking run that succeeded, followed by a
failed delivery of the success callback, makes the handler POST a second
callback that re-reports the job as failed (status "failed", error_type
"inference_error") — the notification failure is not surfaced only via
logs. -/
theorem C1_counterexample :
    ((perform_docking_uniprot
        { returncode := 0, stdout := "", stderr := "", complexDirExists := true,
          complexFiles := [("rank1_confidence0.17.sdf", "SDFDATA")] }
        "./local_proteins/P12345.pdb" "CCO" "/tmp/dock" []).1
      = .ok { docking_score := Rat.divInt 17 100,
              docking_confidence := "high confidence", pose := "SDFDATA",
              uniprot_id := "P12345", ligand := "CCO" })
    ∧ ((dock_job_run
        { returncode := 0, stdout := "", stderr := "", complexDirExists := true,
          complexFiles := [("rank1_confidence0.17.sdf", "SDFDATA")] }
        { firstPostOk := false,
          httpErrMsg := "Server error 500 INTERNAL SERVER ERROR for url http://cb/done",
          secondPostOk := true }
        "./local_proteins/P12345.pdb" "CCO" "/tmp/dock" []).1.1.filter
        Sent.isFailureReport
      = [Sent.failure
          { status := "failed", error_type := "inference_error",
            uniprot_id := "P12345", ligand := "CCO",
            error := "Server error 500 INTERNAL SERVER ERROR for url http://cb/done",
            stderr := "", error_code := 500 }]) := by decide

/-- C1 (amended): when docking succeeds and the delivery of the success
callback fails, the coroutine does not raise — so the Celery task state
is unaffected by the notification failure — but the handler's catch-all
`except` block then attempts a second callback that re-reports the job as
failed with error_type "inference_error"; only a failure of that second
POST is merely logged.  (Hypothesis `hmsg` reflects that an httpx
delivery-error message never contains the substring "No docking pose was
generated".) -/
theorem C1_amended_notification_failure (o : ProcOutcome) (net : Net)
    (path ligand tmpdir uid : String) (fs : FS) (r : DockResult)
    (hdock : (perform_docking_uniprot o path ligand tmpdir fs).1 = .ok r)
    (hu : uniprot_id_from_path path = some uid)
    (hfail : net.firstPostOk = false)
    (hmsg : strContains net.httpErrMsg "No docking pose was generated" = false) :
    (dock_job_run o net path ligand tmpdir fs).1
      = ([Sent.success { status := "completed", result := r },
          Sent.failure
            { status := "failed", error_type := "inference_error",
              uniprot_id := uid, ligand := ligand,
              error := net.httpErrMsg, stderr := "", error_code := 500 }],
         false) := by
  have het : errorTypeOf net.httpErrMsg = "inference_error" := by
    unfold errorTypeOf
    rw [hmsg]
    rfl
  simp only [dock_job_run]
  rw [hdock]
  simp only [process_docking_request_uniprot, hfail, hu, mkErrorPayload, het,
    Bool.false_eq_true, if_false]

/-- C1 witness: the amended theorem at a concrete succeeded run whose
success callback fails to deliver. -/
theorem C1_witness :
    (dock_job_run
        { returncode := 0, stdout := "", stderr := "", complexDirExists := true,
          complexFiles := [("rank1_confidence-2.0.sdf", "POSEBLOCK")] }
        { firstPostOk := false,
          httpErrMsg := "callback unreachable: connection refused",
          secondPostOk := false }
        "./local_proteins/O00255.pdb" "CCN" "/tmp/dock" []).1
      = ([Sent.success
            { status := "completed",
              result := { docking_score := Rat.divInt (-2) 1,
                          docking_confidence := "low confidence",
                          pose := "POSEBLOCK", uniprot_id := "O00255",
                          ligand := "CCN" } },
          Sent.failure
            { status := "failed", error_type := "inference_error",
              uniprot_id := "O00255", ligand := "CCN",
              error := "callback unreachable: connection refused",
              stderr := "", error_code := 500 }],
         false) :=
  C1_amended_notification_failure
    { returncode := 0, stdout := "", stderr := "", complexDirExists := true,
      complexFiles := [("rank1_confidence-2.0.sdf", "POSEBLOCK")] }
    { firstPostOk := false,
      httpErrMsg := "callback unreachable: connection refused",
      secondPostOk := false }
    "./local_proteins/O00255.pdb" "CCN" "/tmp/dock" "O00255" []
    { docking_score := Rat.divInt (-2) 1, docking_confidence := "low confidence",
      pose := "POSEBLOCK", uniprot_id := "O00255", ligand := "CCN" }
    (by decide) (by decide) (by decide) (by decide)

/-- C7 (counterexample): a successful execution delivers a payload whose
`docking_confidence` is "high confidence" — not exactly one of the
strings "high", "moderate", "low". -/
theorem C7_counterexample :
    ((dock_job_run
        { returncode := 0, stdout := "", stderr := "", complexDirExists := true,
          complexFiles := [("rank1_confidence0.17.sdf", "SDFCONTENT")] }
        { firstPostOk := true, httpErrMsg := "", secondPostOk := true }
        "./local_proteins/P12345.pdb" "CCO" "/tmp/dock" []).1
      = ([Sent.success
            { status := "completed",
              result := { docking_score := Rat.divInt 17 100,
                          docking_confidence := "high confidence",
                          pose := "SDFCONTENT", uniprot_id := "P12345",
                          ligand := "CCO" } }], false))
    ∧ "high confidence" ∉ (["high", "moderate", "low"] : List String) := by decide

/-- C7 (amended): for every successful execution, the delivered payload
has status "completed" and a result holding the score parsed as a float
from the artifact's filename, a `docking_confidence` that is exactly one
of the strings "high confidence" / "moderate confidence" /
"low confidence", the artifact's full content verbatim as the pose, and
the echoed UniProt id and ligand. -/
theorem C7_amended_success_payload (o : ProcOutcome) (net : Net)
    (path ligand tmpdir uid name content : String)
    (rest : List (String × String)) (sc : ℚ) (fs : FS)
    (hrc : o.returncode = 0) (hdir : o.complexDirExists = true)
    (hfiles : o.complexFiles.filter (fun f => matchesRankGlob f.1)
      = (name, content) :: rest)
    (hsc : pyFloat (scoreStr name) = some sc)
    (hpath : uniprot_id_from_path path = some uid)
    (hnet : net.firstPostOk = true) :
    (dock_job_run o net path ligand tmpdir fs).1
      = ([Sent.success
            { status := "completed",
              result := { docking_score := sc, docking_confidence := classify sc,
                          pose := content, uniprot_id := uid,
                          ligand := ligand } }], false)
    ∧ (classify sc = "high confidence" ∨ classify sc = "moderate confidence"
        ∨ classify sc = "low confidence") := by
  constructor
  · simp only [dock_job_run, perform_docking_uniprot, hpath, performBody, hrc,
      hdir, hfiles, hsc, Except.mapError, process_docking_request_uniprot, hnet]
    simp
  · unfold classify
    split_ifs <;> simp

/-- C7 witness: the amended theorem at a concrete successful execution
with score -0.5. -/
theorem C7_witness :
    (dock_job_run
        { returncode := 0, stdout := "", stderr := "", complexDirExists := true,
          complexFiles := [("rank1_confidence-0.5.sdf", "MOLBLOCK")] }
        { firstPostOk := true, httpErrMsg := "", secondPostOk := true }
        "./local_proteins/P69905.pdb" "CC(=O)O" "/tmp/dock" []).1
      = ([Sent.success
            { status := "completed",
              result := { docking_score := Rat.divInt (-1) 2,
                          docking_confidence := classify (Rat.divInt (-1) 2),
                          pose := "MOLBLOCK", uniprot_id := "P69905",
                          ligand := "CC(=O)O" } }], false)
    ∧ (classify (Rat.divInt (-1) 2) = "high confidence"
        ∨ classify (Rat.divInt (-1) 2) = "moderate confidence"
        ∨ classify (Rat.divInt (-1) 2) = "low confidence") :=
  C7_amended_success_payload
    { returncode := 0, stdout := "", stderr := "", complexDirExists := true,
      complexFiles := [("rank1_confidence-0.5.sdf", "MOLBLOCK")] }
    { firstPostOk := true, httpErrMsg := "", secondPostOk := true }
    "./local_proteins/P69905.pdb" "CC(=O)O" "/tmp/dock" "P69905"
    "rank1_confidence-0.5.sdf" "MOLBLOCK" [] (Rat.divInt (-1) 2) []
    (by decide) (by decide) (by decide) (by decide) (by decide) (by decide)

/-- Filtering for the scratch predicate after filtering it away yields
nothing. -/
lemma filter_scratch_filter_not (tmpdir : String) (l : List String) :
    List.filter (fun p => underScratch tmpdir p)
      (List.filter (fun p => !underScratch tmpdir p) l) = [] := by
  induction l with
  | nil => rfl
  | cons x xs ih =>
      by_cases hx : underScratch tmpdir x = true
      · simp [List.filter_cons, hx, ih]
      · simp [List.filter_cons, hx, ih]

/-- C8: on every exit path of `perform_docking_uniprot` — success or any
of the raised failures (non-zero exit, missing subdirectory, missing
artifact, unparsable score, bad protein path) — no path at or under the
scratch directory remains in the final filesystem, provided none existed
before the run. -/
theorem C8_scratch_removed (o : ProcOutcome) (path ligand tmpdir : String)
    (fs : FS) (hfs : fs.filter (fun p => underScratch tmpdir p) = []) :
    ((perform_docking_uniprot o path ligand tmpdir fs).2).filter
      (fun p => underScratch tmpdir p) = [] := by
  unfold perform_docking_uniprot
  cases hu : uniprot_id_from_path path with
  | none => exact hfs
  | some uid =>
      show (List.filter (fun p => !underScratch tmpdir p)
          (fs ++ scratchPaths tmpdir o)).filter
        (fun p => underScratch tmpdir p) = []
      exact filter_scratch_filter_not tmpdir _

/-- C8 witness: the theorem at a concrete successful run over a
filesystem holding only the protein file. -/
theorem C8_witness :
    ((perform_docking_uniprot
        { returncode := 0, stdout := "", stderr := "", complexDirExists := true,
          complexFiles := [("rank1_confidence0.17.sdf", "POSE")] }
        "./local_proteins/P12345.pdb" "CCO" "/tmp/dock"
        ["./local_proteins/P12345.pdb"]).2).filter
      (fun p => underScratch "/tmp/dock" p) = [] :=
  C8_scratch_removed
    { returncode := 0, stdout := "", stderr := "", complexDirExists := true,
      complexFiles := [("rank1_confidence0.17.sdf", "POSE")] }
    "./local_proteins/P12345.pdb" "CCO" "/tmp/dock"
    ["./local_proteins/P12345.pdb"] (by decide)

end DiffDock
